import Mathlib

/-!
Verification development for the WhisperX GUI application
(`whisperx_gui/main.py`).

The Python source is shallowly embedded:

* numeric durations/timestamps (Python floats holding exactly
  representable values) are modelled as rationals (`ℚ`);
* Python `int(x)` (truncation toward zero) is `pyint`, Python's float
  `%` is `pymod`, `//` composed with `int` is `Int.floor`;
* the background worker `TranscriptionWorker.run` is modelled as a pure
  function from the settings, an oracle giving the outcome of each call
  into the external `whisperx`/`torch` pipeline, and the values read from
  the cooperative cancellation flag, to a trace of marks (progress /
  terminal signal emissions, flag checks, stage entries) plus a resource
  ledger counting explicit model releases;
* the main-window controller (`WhisperXGUI`) is modelled as a state
  machine over UI events; Qt buttons that are hidden or disabled do not
  deliver clicks, which is how the code enforces single-flight.

Message strings follow the source with apostrophes and emoji elided
(they are opaque UI text; no property inspects them).
-/

/-- A transcript segment as used by the GUI: a Python dict that may lack
any of the `start` / `end` / `text` keys (`none` = key absent).
`end` is a Lean keyword, hence the `t` prefixes. -/
structure Segment where
  tStart : Option ℚ
  tEnd : Option ℚ
  text : Option String
deriving DecidableEq

/-- Result dict produced by the external pipeline: `language` may be
absent (the worker reads it with `.get("language", "??")`, but indexes
`result["language"]` when aligning), plus the segment list. -/
structure TResult where
  language : Option String
  segments : List Segment
deriving DecidableEq

/-- Python `int(x)`: truncation toward zero. -/
def pyint (q : ℚ) : ℤ := if 0 ≤ q then ⌊q⌋ else ⌈q⌉

/-- Python float `%` for a positive modulus: `a % b = a - b * (a // b)`. -/
def pymod (a b : ℚ) : ℚ := a - b * ⌊a / b⌋

/-- Python `f"{n:0wd}"` on an integer: pad with leading zeros to width
`w` (the sign, when present, counts toward the width, as in Python). -/
def pad (w : Nat) (n : ℤ) : String :=
  let s := toString n
  if s.length ≥ w then s else String.mk (List.replicate (w - s.length) '0') ++ s

/-- `WhisperXGUI.format_time` (main.py:1045-1051): format seconds as
`HH:MM:SS,mmm`. -/
def format_time (seconds : ℚ) : String :=
  let hours : ℤ := ⌊seconds / 3600⌋
  let minutes : ℤ := ⌊pymod seconds 3600 / 60⌋
  let secs : ℤ := pyint (pymod seconds 60)
  let millis : ℤ := pyint ((seconds - (pyint seconds : ℚ)) * 1000)
  pad 2 hours ++ ":" ++ pad 2 minutes ++ ":" ++ pad 2 secs ++ "," ++ pad 3 millis

/-- `TranscriptionWorker.format_duration` (main.py:44-50). -/
def format_duration (seconds : ℚ) : String :=
  let minutes : ℤ := ⌊seconds / 60⌋
  let secs : ℤ := pyint (pymod seconds 60)
  if minutes > 0 then toString minutes ++ "m " ++ toString secs ++ "s"
  else toString secs ++ "s"

/-- Spec-side rendering of `format_time`, written from the spec words:
zero-padded `HH:MM:SS,mmm` with floor truncation for the hour, minute
and whole-second fields and for the millisecond remainder. -/
def specFormatTime (q : ℚ) : String :=
  pad 2 ⌊q / 3600⌋ ++ ":" ++ pad 2 (⌊q / 60⌋ % 60) ++ ":" ++ pad 2 (⌊q⌋ % 60)
    ++ "," ++ pad 3 (⌊q * 1000⌋ % 1000)

/-- Spec-side rendering of `format_duration`, written from the spec
words: `"{minutes}m {seconds}s"` when the floor minute count is
positive, else `"{seconds}s"`, both fields floor-truncated. -/
def specFormatDuration (q : ℚ) : String :=
  let m : ℤ := ⌊q / 60⌋
  let s : ℤ := ⌊q⌋ % 60
  if 0 < m then toString m ++ "m " ++ toString s ++ "s" else toString s ++ "s"

/-- Python `str.strip()`: drop leading and trailing whitespace. -/
def pyStrip (s : String) : String :=
  String.mk (((s.data.dropWhile Char.isWhitespace).reverse.dropWhile
    Char.isWhitespace).reverse)

/-- Plain-text export (main.py:1069-1072): space-join the segment texts
(missing `text` keys default to `""`) and strip. -/
def export_txt (segs : List Segment) : String :=
  pyStrip (String.intercalate " " (segs.map fun s => s.text.getD ""))

/-- One SRT block as built inside the loop of `export_result`
(main.py:1076-1080), for 1-based index `i`. -/
def srtBlock (i : Nat) (seg : Segment) : String :=
  toString i ++ "\n" ++ format_time (seg.tStart.getD 0) ++ " --> "
    ++ format_time (seg.tEnd.getD 0) ++ "\n" ++ pyStrip (seg.text.getD "") ++ "\n\n"

/-- The SRT accumulation loop of `export_result`: concatenate the blocks,
threading the running index. -/
def srtBlocks : Nat → List Segment → String
  | _, [] => ""
  | i, seg :: rest => srtBlock i seg ++ srtBlocks (i + 1) rest

/-- SRT export (main.py:1074-1083): `enumerate(segments, 1)`. -/
def export_srt (segs : List Segment) : String := srtBlocks 1 segs

/-- Spec-side SRT export: for each segment in input order starting at
index 1, emit the block. -/
def specSrt (segs : List Segment) : String :=
  ((List.enumFrom 1 segs).map fun p => srtBlock p.1 p.2).foldr (· ++ ·) ""

/-- `specSrt` generalized to an arbitrary starting index. -/
def specSrtFrom (i : Nat) (segs : List Segment) : String :=
  ((List.enumFrom i segs).map fun p => srtBlock p.1 p.2).foldr (· ++ ·) ""

/-- Substitute the defaults `export_result` uses for absent dict keys:
`0` for `start`/`end`, `""` for `text`. -/
def fillDefaults (s : Segment) : Segment :=
  { tStart := some (s.tStart.getD 0), tEnd := some (s.tEnd.getD 0),
    text := some (s.text.getD "") }

/-- The states after `Idle` of the Orchestrator state machine
(spec §4.1); `cleaningUp` is the `del model` / cache-release step. -/
inductive Stage
  | loadingModel
  | loadingAudio
  | transcribing
  | aligning
  | diarizing
  | cleaningUp
deriving DecidableEq

/-- One observable step of `TranscriptionWorker.run`: a signal emission
(`progress` / `finished` / `errorEv`), a read of the `_is_cancelled`
flag (`check`, tagged with the stage whose work it guards), or the start
of a stage's work (`enter`). -/
inductive Mark
  | progress (pct : Nat) (msg : String)
  | finished (r : TResult)
  | errorEv (msg : String)
  | check (observed : Bool) (next : Stage)
  | enter (st : Stage)
deriving DecidableEq

/-- The settings the worker reads (main.py:58-64); fields not affecting
control flow or messages are omitted. `hf_token` is `None` when
diarization is unchecked, else the token field text. -/
structure Settings where
  model : String
  align : Bool
  diarize : Bool
  hf_token : Option String
deriving DecidableEq

/-- Outcome of every call into the external pipeline (plus the
`torch.cuda.is_available()` probe): each call either returns a value or
raises, which the embedding threads as `Except`. -/
structure Oracle where
  load_model : Except String Unit
  load_audio : Except String Nat
  transcribe : Except String TResult
  load_align_model : Except String Unit
  alignCall : Except String TResult
  diarize_ctor : Except String Unit
  diarize_call : Except String Unit
  assign_word_speakers : Except String TResult
  cuda_available : Bool

/-- The value the worker observes at each of its five reads of
`_is_cancelled` (main.py lines 71, 83, 95, 117, 150, in order). -/
structure Cancel where
  c0 : Bool
  c1 : Bool
  c2 : Bool
  c3 : Bool
  c4 : Bool

/-- Output of the `try`-block body: the trace so far, the exception that
escaped the body (if any), whether the main model was loaded, and how
often the explicit main-model cleanup (`del model` + `gc.collect()` +
conditional `torch.cuda.empty_cache()`) ran, with the accelerator-cache
release counted separately. -/
structure BodyOut where
  marks : List Mark
  exn : Option String
  modelLoaded : Bool
  modelReleased : Nat
  accelReleased : Nat
deriving DecidableEq

/-- Python truthiness of the optional token (`if hf_token:`,
main.py:156): an absent token and the empty string are both falsy. -/
def tokenTruthy : Option String → Bool
  | none => false
  | some t => !t.isEmpty

/-- A `BodyOut` for an early exit (cancellation return or exception)
taken after the model was loaded but before the cleanup ran. -/
def exitLoaded (ms : List Mark) (exn : Option String) : BodyOut :=
  { marks := ms, exn := exn, modelLoaded := true,
    modelReleased := 0, accelReleased := 0 }

/-- Tail of the `try`-block from the cleanup step on (main.py:179-189):
progress 98, `del model` + `gc.collect()` + `torch.cuda.empty_cache()`
when CUDA is available, progress 100, `finished.emit(result)`. -/
def afterDiarize (o : Oracle) (ms : List Mark) (num_segments : Nat)
    (rFin : TResult) : BodyOut :=
  let ms10 := ms ++
    [Mark.progress 98 "Nettoyage de la memoire...", Mark.enter Stage.cleaningUp]
  let ms11 := ms10 ++
    [Mark.progress 100 ("Termine ! " ++ toString num_segments ++ " segments transcrits"),
     Mark.finished rFin]
  { marks := ms11, exn := none, modelLoaded := true, modelReleased := 1,
    accelReleased := if o.cuda_available then 1 else 0 }

/-- Tail of the `try`-block from the fourth cancellation check on
(main.py:150-189): check, diarization stage (silently skipped — no
emission at all — when the flag is on but the token is falsy), then
cleanup. -/
def afterAlign (s : Settings) (o : Oracle) (c : Cancel) (ms : List Mark)
    (num_segments : Nat) (rAl : TResult) : BodyOut :=
  if c.c4 then exitLoaded (ms ++ [Mark.check true Stage.diarizing]) none
  else
    let ms9 := ms ++ [Mark.check false Stage.diarizing]
    if s.diarize then
      if tokenTruthy s.hf_token then
        let msD := ms9 ++ [Mark.enter Stage.diarizing,
          Mark.progress 80 "Chargement du modele de diarisation..."]
        match o.diarize_ctor with
        | .error e => exitLoaded msD (some e)
        | .ok () =>
          let msD2 := msD ++ [Mark.progress 85 "Identification des locuteurs..."]
          match o.diarize_call with
          | .error e => exitLoaded msD2 (some e)
          | .ok () =>
            let msD3 := msD2 ++
              [Mark.progress 95 "Attribution des locuteurs aux segments..."]
            match o.assign_word_speakers with
            | .error e => exitLoaded msD3 (some e)
            | .ok r3 => afterDiarize o msD3 num_segments r3
      else
        afterDiarize o ms9 num_segments rAl
    else
      afterDiarize o (ms9 ++ [Mark.progress 95 "Diarisation ignoree"])
        num_segments rAl

/-- Tail of the `try`-block from the third cancellation check on
(main.py:117-189): check, alignment stage (`result["language"]` raises
`KeyError` when the key is absent), alignment-model cleanup, then the
rest. -/
def afterTranscribe (s : Settings) (o : Oracle) (c : Cancel) (ms : List Mark)
    (num_segments : Nat) (detected_lang : String) (r : TResult) : BodyOut :=
  if c.c3 then exitLoaded (ms ++ [Mark.check true Stage.aligning]) none
  else
    let ms7 := ms ++ [Mark.check false Stage.aligning]
    if s.align then
      let msA := ms7 ++ [Mark.enter Stage.aligning,
        Mark.progress 55 ("Chargement du modele d alignement (" ++ detected_lang ++ ")...")]
      match r.language with
      | none => exitLoaded msA (some "KeyError: language")
      | some _ =>
        match o.load_align_model with
        | .error e => exitLoaded msA (some e)
        | .ok () =>
          let msA2 := msA ++ [Mark.progress 65 "Alignement des mots en cours..."]
          match o.alignCall with
          | .error e => exitLoaded msA2 (some e)
          | .ok r2 =>
            -- del model_a; gc.collect(); empty_cache if CUDA available
            afterAlign s o c (msA2 ++ [Mark.progress 75 "Alignement termine"])
              num_segments r2
    else
      afterAlign s o c (ms7 ++ [Mark.progress 75 "Alignement ignore"])
        num_segments r

/-- The `try`-block of `TranscriptionWorker.run` (main.py:52-189),
translated statement by statement (the tail from main.py:117 on lives in
`afterTranscribe` / `afterAlign` / `afterDiarize`). Early `return`s on
an observed cancellation and exceptions from pipeline calls each stop
the body; the exception, when any, is reported in `exn` for the
handler. -/
def runBody (s : Settings) (o : Oracle) (c : Cancel) : BodyOut :=
  let ms0 := [Mark.progress 5 ("Chargement du modele " ++ s.model ++ "...")]
  if c.c0 then
    { marks := ms0 ++ [Mark.check true Stage.loadingModel], exn := none,
      modelLoaded := false, modelReleased := 0, accelReleased := 0 }
  else
    let ms1 := ms0 ++ [Mark.check false Stage.loadingModel, Mark.enter Stage.loadingModel]
    match o.load_model with
    | .error e =>
      { marks := ms1, exn := some e, modelLoaded := false,
        modelReleased := 0, accelReleased := 0 }
    | .ok () =>
      let ms2 := ms1 ++ [Mark.progress 15 "Modele charge - Chargement de l audio..."]
      if c.c1 then exitLoaded (ms2 ++ [Mark.check true Stage.loadingAudio]) none
      else
        let ms3 := ms2 ++ [Mark.check false Stage.loadingAudio, Mark.enter Stage.loadingAudio]
        match o.load_audio with
        | .error e => exitLoaded ms3 (some e)
        | .ok sampleCount =>
          let audio_duration : ℚ := (sampleCount : ℚ) / 16000
          let duration_str := format_duration audio_duration
          let ms4 := ms3 ++
            [Mark.progress 20 ("Audio: " ++ duration_str ++ " - Demarrage transcription...")]
          if c.c2 then exitLoaded (ms4 ++ [Mark.check true Stage.transcribing]) none
          else
            let ms5 := ms4 ++
              [Mark.check false Stage.transcribing,
               Mark.progress 25 ("Transcription de " ++ duration_str ++ " d audio..."),
               Mark.enter Stage.transcribing]
            match o.transcribe with
            | .error e => exitLoaded ms5 (some e)
            | .ok r =>
              let detected_lang := r.language.getD "??"
              let num_segments := r.segments.length
              let ms6 := ms5 ++
                [Mark.progress 50 ("Transcription terminee - " ++ toString num_segments
                  ++ " segments - Langue: " ++ detected_lang)]
              afterTranscribe s o c ms6 num_segments detected_lang r

/-- `TranscriptionWorker.run` with its `except Exception` handler
(main.py:191-192): any exception escaping the body is caught and turned
into a single `error` signal carrying `str(e)`. -/
def run (s : Settings) (o : Oracle) (c : Cancel) : BodyOut :=
  let b := runBody s o c
  match b.exn with
  | some e => { b with marks := b.marks ++ [Mark.errorEv e], exn := none }
  | none => b

/-- The pieces of `WhisperXGUI` state that the job-control flow reads or
writes: the selected file, the three diarization-relevant widgets, the
visibility/enabled state of the transcribe and cancel buttons, and the
number of started-but-not-terminated worker threads (a counter so that
over-admission would be observable). -/
structure UI where
  current_file : Option String
  model_choice : String
  align_checked : Bool
  diarize_checked : Bool
  hf_token_text : String
  transcribeEnabled : Bool
  transcribeVisible : Bool
  cancelVisible : Bool
  activeWorkers : Nat
deriving DecidableEq

/-- Fresh `WhisperXGUI` (main.py:273-279, 633-643, 668, 731, 747, 751):
no file, transcribe button disabled but visible, cancel hidden, no
worker. -/
def initUI : UI :=
  { current_file := none, model_choice := "small", align_checked := true,
    diarize_checked := false, hf_token_text := "",
    transcribeEnabled := false, transcribeVisible := true,
    cancelVisible := false, activeWorkers := 0 }

/-- `WhisperXGUI.get_settings` (main.py:926-940), restricted to the
fields the worker model uses. -/
def get_settings (u : UI) : Settings :=
  { model := u.model_choice, align := u.align_checked,
    diarize := u.diarize_checked,
    hf_token := if u.diarize_checked then some u.hf_token_text else none }

/-- What a call to `start_transcription` did: whether a
`TranscriptionWorker` was constructed and started (with which file and
settings), and whether the blocking precondition dialog
(`QMessageBox.warning`) was shown. -/
structure StartResult where
  workerStarted : Option (String × Settings)
  warningShown : Bool
deriving DecidableEq

/-- `WhisperXGUI.start_transcription` validation prefix (main.py:942-976):
return silently with no file, reject with a warning when diarization is
requested and the token text is empty, otherwise build the settings and
start the worker. -/
def start_transcription (u : UI) : StartResult :=
  match u.current_file with
  | none => { workerStarted := none, warningShown := false }
  | some f =>
    if u.diarize_checked && u.hf_token_text.isEmpty then
      { workerStarted := none, warningShown := true }
    else
      { workerStarted := some (f, get_settings u), warningShown := false }

/-- Worker marks observable after a start request: none unless
`start_transcription` actually started a worker, in which case they are
whatever `run` emits for the handed-over settings. -/
def startEvents (u : UI) (o : Oracle) (c : Cancel) : List Mark :=
  match (start_transcription u).workerStarted with
  | none => []
  | some (_, s) => (run s o c).marks

/-- UI events driving the Job Controller: user actions on widgets and
the worker's terminal signals. A click on a hidden or disabled button is
delivered to no slot (Qt), so such clicks are identity steps. -/
inductive Ev
  | selectFile (f : String)
  | clickTranscribe
  | clickCancel
  | workerFinished
  | workerError
  | setToken (t : String)
  | toggleDiarize (b : Bool)
  | toggleAlign (b : Bool)

/-- One controller step. `selectFile` is `on_file_selected`
(main.py:908-924, always re-enables the transcribe button but never
changes its visibility); `clickTranscribe` runs `start_transcription`
(main.py:942-978, hides the transcribe button and shows cancel before
starting the worker); `workerFinished` / `workerError` are
`on_transcription_complete` / `on_transcription_error`, both ending in
`reset_ui_after_transcription` (main.py:1037-1043); `clickCancel` is
`cancel_transcription` (main.py:980-988), which waits for the worker to
stop and then resets the UI. -/
def stepFn (u : UI) : Ev → UI
  | .selectFile f => { u with current_file := some f, transcribeEnabled := true }
  | .clickTranscribe =>
    if u.transcribeVisible && u.transcribeEnabled then
      match (start_transcription u).workerStarted with
      | none => u
      | some _ =>
        { u with transcribeEnabled := false, transcribeVisible := false,
                 cancelVisible := true, activeWorkers := u.activeWorkers + 1 }
    else u
  | .clickCancel =>
    if u.cancelVisible then
      { u with transcribeEnabled := true, transcribeVisible := true,
               cancelVisible := false, activeWorkers := 0 }
    else u
  | .workerFinished =>
    if u.activeWorkers = 0 then u
    else
      { u with transcribeEnabled := true, transcribeVisible := true,
               cancelVisible := false, activeWorkers := u.activeWorkers - 1 }
  | .workerError =>
    if u.activeWorkers = 0 then u
    else
      { u with transcribeEnabled := true, transcribeVisible := true,
               cancelVisible := false, activeWorkers := u.activeWorkers - 1 }
  | .setToken t => { u with hf_token_text := t }
  | .toggleDiarize b => { u with diarize_checked := b }
  | .toggleAlign b => { u with align_checked := b }

/-- Controller states reachable from a fresh window via UI events. -/
inductive Reach : UI → Prop
  | init : Reach initUI
  | step {u : UI} (h : Reach u) (e : Ev) : Reach (stepFn u e)

/-- Percent values of the progress emissions of a trace, in order. -/
def percents (m : List Mark) : List Nat :=
  m.filterMap fun x =>
    match x with
    | Mark.progress p _ => some p
    | _ => none

/-- The progress checkpoints of the success path as a function of the
alignment flag, the diarization flag, and token truthiness. -/
def checkpoints (al di tok : Bool) : List Nat :=
  [5, 15, 20, 25, 50] ++ (if al then [55, 65, 75] else [75])
    ++ (if di then (if tok then [80, 85, 95] else []) else [95]) ++ [98, 100]

/-- `true` iff every `enter target` in the trace is preceded (anywhere
earlier) by a flag check tagged with `target`; the accumulator records
whether such a check has been seen. -/
def checkedBefore (target : Stage) : List Mark → Bool → Bool
  | [], _ => true
  | Mark.check _ st :: r, seen => checkedBefore target r (seen || st == target)
  | Mark.enter st :: r, seen =>
    (if st == target then seen else true) && checkedBefore target r seen
  | _ :: r, seen => checkedBefore target r seen

/-- Every one of the five pre-cleanup stages is flag-checked before it
is entered. -/
def guardedStages (m : List Mark) : Bool :=
  checkedBefore Stage.loadingModel m false && checkedBefore Stage.loadingAudio m false
    && checkedBefore Stage.transcribing m false && checkedBefore Stage.aligning m false
    && checkedBefore Stage.diarizing m false

/-- `true` iff the trace stops dead at any flag check that observed the
cancellation flag set: nothing at all is emitted or entered after it. -/
def stopsOnCancel : List Mark → Bool
  | [] => true
  | Mark.check true _ :: r => r.isEmpty
  | _ :: r => stopsOnCancel r

/-- Is this mark an `error` signal emission? -/
def isErrorMark : Mark → Bool
  | Mark.errorEv _ => true
  | _ => false

/-- Is this mark a `finished` (result) signal emission? -/
def isFinishedMark : Mark → Bool
  | Mark.finished _ => true
  | _ => false

/-- Is this mark a flag check that observed the flag set? -/
def isCheckTrue : Mark → Bool
  | Mark.check true _ => true
  | _ => false

/-- Does the last mark of the trace satisfy `p`? (`false` on the empty
trace.) -/
def lastSat (p : Mark → Bool) : List Mark → Bool
  | [] => false
  | [x] => p x
  | _ :: r => lastSat p r

/-- Error containment: if any error signal occurs in the trace then it
occurs exactly once, it is the very last mark, and no result signal
occurs. -/
def errorContainment (m : List Mark) : Bool :=
  if m.any isErrorMark then
    ((m.filter isErrorMark).length == 1) && (!(m.any isFinishedMark))
      && lastSat isErrorMark m
  else true

/-- The handler converts exactly the body's escaped exception: an
exception is reported as a trailing `error` signal carrying its text,
and no error signal appears otherwise. -/
def exnReported (b : BodyOut) (m : List Mark) : Bool :=
  match b.exn with
  | some e => lastSat (fun x => x == Mark.errorEv e) m
  | none => !(m.any isErrorMark)

/-- The facts about one `try`-body execution from which the trace-shape
theorems follow: the five pre-cleanup stages are flag-checked before
entry, an observed-set check ends the trace, the body itself never emits
an error signal, and a body that escaped with an exception emitted no
result signal and never observed the flag set. -/
def bodyInv (b : BodyOut) : Bool :=
  guardedStages b.marks && stopsOnCancel b.marks && !(b.marks.any isErrorMark)
    && (b.exn.isNone
        || (!(b.marks.any isFinishedMark) && !(b.marks.any isCheckTrue)))

/-- An oracle on which every external call succeeds (transcription
detects French and returns no segments; sample count 16000 = 1 s). -/
def oOk : Oracle :=
  { load_model := .ok (), load_audio := .ok 16000,
    transcribe := .ok { language := some "fr", segments := [] },
    load_align_model := .ok (), alignCall := .ok { language := none, segments := [] },
    diarize_ctor := .ok (), diarize_call := .ok (),
    assign_word_speakers := .ok { language := none, segments := [] },
    cuda_available := true }

/-- Like `oOk` but transcription raises (e.g. out of memory). -/
def oTrErr : Oracle := { oOk with transcribe := .error "CUDA out of memory" }

/-- Cancellation never requested: all five flag reads observe `false`. -/
def cNone : Cancel := ⟨false, false, false, false, false⟩

/-- Cancellation requested between model load and audio load: the read
at main.py:83 (the first one after the model load completed) observes
`true`. -/
def cAfterLoad : Cancel := ⟨false, true, false, false, false⟩

/-- Settings with alignment and diarization (token present). -/
def sFull : Settings :=
  { model := "small", align := true, diarize := true, hf_token := some "hf-abc" }

/-- Settings with neither alignment nor diarization. -/
def sPlain : Settings :=
  { model := "small", align := false, diarize := false, hf_token := none }

/-- A UI state with a file selected, diarization on, empty token. -/
def uNoToken : UI :=
  { initUI with
    current_file := some "a.wav", transcribeEnabled := true,
    diarize_checked := true }

/-- Does the trace contain a flag check tagged with `t`? -/
def hasCheck (t : Stage) (m : List Mark) : Bool :=
  m.any fun x =>
    match x with
    | Mark.check _ st => st == t
    | _ => false

/-- No flag check in the trace observed the flag set. -/
def noCheckTrue (m : List Mark) : Bool := !(m.any isCheckTrue)

/-- Invariant of every trace prefix the body threads into its
continuation helpers: pre-cleanup stages checked before entry, no
observed-set check, no error and no result signal yet. -/
def prefixOK (m : List Mark) : Bool :=
  guardedStages m && noCheckTrue m && !(m.any isErrorMark) && !(m.any isFinishedMark)

theorem checkedBefore_append (t : Stage) (l1 l2 : List Mark) (seen : Bool) :
    checkedBefore t (l1 ++ l2) seen
      = (checkedBefore t l1 seen && checkedBefore t l2 (seen || hasCheck t l1)) := by
  induction l1 generalizing seen with
  | nil => simp [checkedBefore, hasCheck]
  | cons a l ih =>
    cases a <;>
      simp [checkedBefore, hasCheck, ih, Bool.or_assoc, Bool.and_assoc]

theorem stopsOnCancel_append (l1 l2 : List Mark) (h : l1.any isCheckTrue = false) :
    stopsOnCancel (l1 ++ l2) = stopsOnCancel l2 := by
  induction l1 with
  | nil => simp
  | cons a l ih =>
    simp only [List.any_cons, Bool.or_eq_false_iff] at h
    cases a with
    | check obs st =>
      cases obs with
      | true => simp [isCheckTrue] at h
      | false => simpa [stopsOnCancel] using ih h.2
    | progress p m => simpa [stopsOnCancel] using ih h.2
    | finished r => simpa [stopsOnCancel] using ih h.2
    | errorEv e => simpa [stopsOnCancel] using ih h.2
    | enter st => simpa [stopsOnCancel] using ih h.2

theorem lastSat_append_single (p : Mark → Bool) (x : Mark) (l : List Mark) :
    lastSat p (l ++ [x]) = p x := by
  induction l with
  | nil => simp [lastSat]
  | cons a l ih =>
    cases l with
    | nil => simp_all [lastSat]
    | cons b l' => simp_all [lastSat]

theorem filter_eq_nil_of_any_false {p : Mark → Bool} {l : List Mark}
    (h : l.any p = false) : l.filter p = [] := by
  induction l with
  | nil => rfl
  | cons a l ih =>
    simp only [List.any_cons, Bool.or_eq_false_iff] at h
    simp [List.filter_cons, h.1, ih h.2]

theorem afterDiarize_inv (o : Oracle) (ms : List Mark) (n : Nat) (r : TResult)
    (h : prefixOK ms = true) : bodyInv (afterDiarize o ms n r) = true := by
  simp only [prefixOK, guardedStages, noCheckTrue, Bool.and_eq_true,
    Bool.not_eq_true'] at h
  obtain ⟨⟨⟨⟨⟨⟨⟨h1, h2⟩, h3⟩, h4⟩, h5⟩, hnc⟩, herr⟩, hfin⟩ := h
  simp [afterDiarize, bodyInv, guardedStages, checkedBefore_append,
    stopsOnCancel_append _ _ hnc, checkedBefore, isErrorMark, isFinishedMark,
    h1, h2, h3, h4, h5, herr, hfin, stopsOnCancel]

set_option maxHeartbeats 1600000 in
theorem afterAlign_inv (s : Settings) (o : Oracle) (c : Cancel) (ms : List Mark)
    (n : Nat) (r : TResult) (h : prefixOK ms = true) :
    bodyInv (afterAlign s o c ms n r) = true := by
  simp only [prefixOK, guardedStages, noCheckTrue, Bool.and_eq_true,
    Bool.not_eq_true'] at h
  obtain ⟨⟨⟨⟨⟨⟨⟨h1, h2⟩, h3⟩, h4⟩, h5⟩, hnc⟩, herr⟩, hfin⟩ := h
  simp only [afterAlign, exitLoaded]
  repeat' split
  all_goals
    first
      | (apply afterDiarize_inv
         simp [prefixOK, guardedStages, checkedBefore_append, checkedBefore, hasCheck,
           noCheckTrue, isCheckTrue, isErrorMark, isFinishedMark,
           h1, h2, h3, h4, h5, hnc, herr, hfin])
      | simp [bodyInv, guardedStages, checkedBefore_append, stopsOnCancel_append _ _ hnc,
          checkedBefore, stopsOnCancel, hasCheck, noCheckTrue, isCheckTrue,
          isErrorMark, isFinishedMark, h1, h2, h3, h4, h5, hnc, herr, hfin]

set_option maxHeartbeats 1600000 in
theorem afterTranscribe_inv (s : Settings) (o : Oracle) (c : Cancel) (ms : List Mark)
    (n : Nat) (dl : String) (r : TResult) (h : prefixOK ms = true) :
    bodyInv (afterTranscribe s o c ms n dl r) = true := by
  simp only [prefixOK, guardedStages, noCheckTrue, Bool.and_eq_true,
    Bool.not_eq_true'] at h
  obtain ⟨⟨⟨⟨⟨⟨⟨h1, h2⟩, h3⟩, h4⟩, h5⟩, hnc⟩, herr⟩, hfin⟩ := h
  simp only [afterTranscribe, exitLoaded]
  repeat' split
  all_goals
    first
      | (apply afterAlign_inv
         simp [prefixOK, guardedStages, checkedBefore_append, checkedBefore, hasCheck,
           noCheckTrue, isCheckTrue, isErrorMark, isFinishedMark,
           h1, h2, h3, h4, h5, hnc, herr, hfin])
      | simp [bodyInv, guardedStages, checkedBefore_append, stopsOnCancel_append _ _ hnc,
          checkedBefore, stopsOnCancel, hasCheck, noCheckTrue, isCheckTrue,
          isErrorMark, isFinishedMark, h1, h2, h3, h4, h5, hnc, herr, hfin]

set_option maxHeartbeats 1600000 in
theorem bodyInv_holds (s : Settings) (o : Oracle) (c : Cancel) :
    bodyInv (runBody s o c) = true := by
  simp only [runBody, exitLoaded]
  repeat' split
  all_goals
    first
      | (apply afterTranscribe_inv
         simp [prefixOK, guardedStages, checkedBefore_append, checkedBefore, hasCheck,
           noCheckTrue, isCheckTrue, isErrorMark, isFinishedMark])
      | simp [bodyInv, guardedStages, checkedBefore_append,
          checkedBefore, stopsOnCancel, hasCheck, noCheckTrue, isCheckTrue,
          isErrorMark, isFinishedMark]

/-- C3 (amended): the worker checks the cancellation flag before
entering each of the five states `LoadingModel`, `LoadingAudio`,
`Transcribing`, `Aligning`, `Diarizing` — though not before
`CleaningUp` — and whenever a check observes the flag set, the run stops
on the spot: nothing further is emitted (no progress, no result, no
error) and no further stage is entered. -/
theorem cancel_checkpoints_guard_and_stop (s : Settings) (o : Oracle) (c : Cancel) :
    guardedStages (run s o c).marks = true ∧ stopsOnCancel (run s o c).marks = true := by
  have hb := bodyInv_holds s o c
  simp only [bodyInv, Bool.and_eq_true, Bool.or_eq_true, Bool.not_eq_true'] at hb
  obtain ⟨⟨⟨hg, hs⟩, he⟩, hrest⟩ := hb
  simp only [guardedStages, Bool.and_eq_true] at hg
  obtain ⟨⟨⟨⟨h1, h2⟩, h3⟩, h4⟩, h5⟩ := hg
  cases hexn : (runBody s o c).exn with
  | none =>
    simp [run, hexn, guardedStages, h1, h2, h3, h4, h5, hs]
  | some e =>
    simp only [hexn, Option.isNone_some, Bool.false_eq_true, false_or] at hrest
    obtain ⟨hf, hc⟩ := hrest
    simp [run, hexn, guardedStages, checkedBefore_append, checkedBefore,
      stopsOnCancel_append _ _ hc, stopsOnCancel, h1, h2, h3, h4, h5]

/-- C5: every exception raised inside the worker body — at model load,
audio load, transcription, alignment, diarization, or cleanup — is
caught by the worker's handler and converted into a single terminal
`error` signal carrying its text; no `finished` (result) signal is
emitted on such a failure, and `run` itself never lets an exception
escape (its `exn` output is always `none`). -/
theorem worker_errors_contained (s : Settings) (o : Oracle) (c : Cancel) :
    errorContainment (run s o c).marks = true
      ∧ exnReported (runBody s o c) (run s o c).marks = true
      ∧ (run s o c).exn = none := by
  have hb := bodyInv_holds s o c
  simp only [bodyInv, Bool.and_eq_true, Bool.or_eq_true, Bool.not_eq_true'] at hb
  obtain ⟨⟨⟨hg, hs⟩, he⟩, hrest⟩ := hb
  cases hexn : (runBody s o c).exn with
  | none =>
    simp [run, hexn, errorContainment, exnReported, he]
  | some e =>
    simp only [hexn, Option.isNone_some, Bool.false_eq_true, false_or] at hrest
    obtain ⟨hf, hc⟩ := hrest
    simp [run, hexn, errorContainment, exnReported, List.any_append,
      List.filter_append, filter_eq_nil_of_any_false he, lastSat_append_single,
      he, hf, isErrorMark, isFinishedMark]

theorem floor_div_int_pos (a : ℚ) (n : ℤ) (hn : 0 < n) : ⌊a / (n : ℚ)⌋ = ⌊a⌋ / n := by
  have hn' : (0 : ℚ) < (n : ℚ) := by exact_mod_cast hn
  have h1 : ((⌊a⌋ : ℤ) : ℚ) ≤ a := Int.floor_le a
  have h2 : a < (⌊a⌋ : ℚ) + 1 := Int.lt_floor_add_one a
  have e1 : 0 ≤ ⌊a⌋ % n := Int.emod_nonneg _ (ne_of_gt hn)
  have e2 : ⌊a⌋ % n < n := Int.emod_lt_of_pos _ hn
  have ed : ⌊a⌋ % n = ⌊a⌋ - n * (⌊a⌋ / n) := Int.emod_def _ _
  rw [Int.floor_eq_iff]
  constructor
  · rw [le_div_iff₀ hn']
    have : ((n * (⌊a⌋ / n) : ℤ) : ℚ) ≤ (⌊a⌋ : ℚ) := by exact_mod_cast by omega
    push_cast at this ⊢
    linarith
  · rw [div_lt_iff₀ hn']
    have : ((⌊a⌋ + 1 : ℤ) : ℚ) ≤ ((n * (⌊a⌋ / n) + n : ℤ) : ℚ) := by exact_mod_cast by omega
    push_cast at this ⊢
    linarith

theorem pymod_nonneg (a : ℚ) (b : ℚ) (hb : 0 < b) : 0 ≤ pymod a b := by
  have h := Int.floor_le (a / b)
  have : (⌊a / b⌋ : ℚ) * b ≤ a := by
    rw [← le_div_iff₀ hb]
    exact h
  simp only [pymod]
  linarith

theorem secs_eq (q : ℚ) : pyint (pymod q 60) = ⌊q⌋ % 60 := by
  have hmn := pymod_nonneg q 60 (by norm_num)
  have hq60 : ⌊q / 60⌋ = ⌊q⌋ / 60 := by
    have := floor_div_int_pos q 60 (by norm_num)
    simpa using this
  have hfloor : ⌊pymod q 60⌋ = ⌊q⌋ - 60 * (⌊q⌋ / 60) := by
    have : pymod q 60 = q - ((60 * ⌊q / 60⌋ : ℤ) : ℚ) := by
      simp only [pymod]; push_cast; ring
    rw [this, Int.floor_sub_int, hq60]
  rw [pyint, if_pos hmn, hfloor, Int.emod_def]

theorem mins_eq (q : ℚ) : ⌊pymod q 3600 / 60⌋ = ⌊q / 60⌋ % 60 := by
  have h3600 : ⌊q / 3600⌋ = ⌊q / 60⌋ / 60 := by
    have h1 : q / 3600 = (q / 60) / ((60 : ℤ) : ℚ) := by push_cast; ring
    rw [h1, floor_div_int_pos (q / 60) 60 (by norm_num)]
  have harg : pymod q 3600 / 60 = q / 60 - ((60 * ⌊q / 3600⌋ : ℤ) : ℚ) := by
    simp only [pymod]; push_cast; ring
  rw [harg, Int.floor_sub_int, h3600, Int.emod_def]

theorem millis_eq (q : ℚ) (h : 0 ≤ q) :
    pyint ((q - (pyint q : ℚ)) * 1000) = ⌊q * 1000⌋ % 1000 := by
  have hpq : pyint q = ⌊q⌋ := if_pos h
  have harg : (q - (pyint q : ℚ)) * 1000 = q * 1000 - ((1000 * ⌊q⌋ : ℤ) : ℚ) := by
    rw [hpq]; push_cast; ring
  have hnn : 0 ≤ (q - (pyint q : ℚ)) * 1000 := by
    rw [hpq]
    have := Int.floor_le q
    nlinarith
  have hq1000 : ⌊q⌋ = ⌊q * 1000⌋ / 1000 := by
    have h1 : q = (q * 1000) / ((1000 : ℤ) : ℚ) := by push_cast; ring
    conv_lhs => rw [h1]
    rw [floor_div_int_pos (q * 1000) 1000 (by norm_num)]
  rw [pyint, if_pos hnn, harg, Int.floor_sub_int, Int.emod_def]
  omega

theorem format_time_eq_spec (q : ℚ) (h : 0 ≤ q) : format_time q = specFormatTime q := by
  simp only [format_time, specFormatTime, mins_eq, secs_eq, millis_eq q h]

theorem format_duration_eq_spec (q : ℚ) : format_duration q = specFormatDuration q := by
  simp only [format_duration, specFormatDuration, secs_eq, gt_iff_lt]

theorem format_time_zero : format_time 0 = "00:00:00,000" := by
  rw [format_time_eq_spec 0 le_rfl]
  simp only [specFormatTime]
  norm_num
  decide

theorem format_time_three_halves : format_time (3 / 2 : ℚ) = "00:00:01,500" := by
  rw [format_time_eq_spec (3 / 2) (by norm_num)]
  simp only [specFormatTime]
  norm_num
  decide

theorem format_time_three : format_time (3 : ℚ) = "00:00:03,000" := by
  rw [format_time_eq_spec 3 (by norm_num)]
  simp only [specFormatTime]
  norm_num
  decide

/-- C7: for every non-negative duration, `format_time` renders
zero-padded `HH:MM:SS,mmm` with floor truncation for the hour, minute
and whole-second fields and for the millisecond remainder (the spec-side
rendering `specFormatTime`); in particular
`format_time 3725.125 = "01:02:05,125"`. -/
theorem format_time_spec (q : ℚ) (h : 0 ≤ q) :
    format_time q = specFormatTime q
      ∧ format_time (29801 / 8 : ℚ) = "01:02:05,125" := by
  refine ⟨format_time_eq_spec q h, ?_⟩
  rw [format_time_eq_spec (29801 / 8) (by norm_num)]
  simp only [specFormatTime]
  norm_num
  decide

theorem format_time_spec_witness :
    format_time (29801 / 8 : ℚ) = specFormatTime (29801 / 8 : ℚ)
      ∧ format_time (29801 / 8 : ℚ) = "01:02:05,125" :=
  format_time_spec (29801 / 8 : ℚ) (by norm_num)

/-- C8: for every non-negative duration, `format_duration` returns
`"{minutes}m {seconds}s"` when the floor minute count is positive and
`"{seconds}s"` otherwise, both fields floor-truncated (the spec-side
rendering `specFormatDuration`); in particular
`format_duration 125.7 = "2m 5s"` and `format_duration 45.2 = "45s"`. -/
theorem format_duration_spec (q : ℚ) (h : 0 ≤ q) :
    format_duration q = specFormatDuration q
      ∧ format_duration (1257 / 10 : ℚ) = "2m 5s"
      ∧ format_duration (226 / 5 : ℚ) = "45s" := by
  refine ⟨format_duration_eq_spec q, ?_, ?_⟩ <;> rw [format_duration_eq_spec]
  · simp only [specFormatDuration]
    norm_num
    decide
  · simp only [specFormatDuration]
    norm_num
    decide

theorem format_duration_spec_witness :
    format_duration (1257 / 10 : ℚ) = specFormatDuration (1257 / 10 : ℚ)
      ∧ format_duration (1257 / 10 : ℚ) = "2m 5s"
      ∧ format_duration (226 / 5 : ℚ) = "45s" :=
  format_duration_spec (1257 / 10 : ℚ) (by norm_num)

theorem srtBlocks_enumFrom (i : Nat) (segs : List Segment) :
    srtBlocks i segs = specSrtFrom i segs := by
  induction segs generalizing i with
  | nil => simp [srtBlocks, specSrtFrom]
  | cons a l ih => simp [srtBlocks, specSrtFrom, List.enumFrom, ih]

/-- C6: SRT export writes, for each segment in input order starting at
index 1, the block `index\nstart --> end\ntext\n\n` with `HH:MM:SS,mmm`
timestamps and trimmed text (the spec-side `specSrt`); on the two
segments `(0, 1.5, "Hello")` and `(1.5, 3, "world")` the output is
exactly the expected SubRip string. -/
theorem export_srt_spec :
    (∀ segs, export_srt segs = specSrt segs)
      ∧ export_srt [⟨some 0, some (3 / 2), some "Hello"⟩, ⟨some (3 / 2), some 3, some "world"⟩]
        = "1\n00:00:00,000 --> 00:00:01,500\nHello\n\n2\n00:00:01,500 --> 00:00:03,000\nworld\n\n" := by
  constructor
  · intro segs
    exact srtBlocks_enumFrom 1 segs
  · simp only [export_srt, srtBlocks, srtBlock, Option.getD_some, format_time_zero,
      format_time_three_halves, format_time_three, pyStrip]
    decide

theorem srtBlocks_map_fillDefaults (i : Nat) (segs : List Segment) :
    srtBlocks i (segs.map fillDefaults) = srtBlocks i segs := by
  induction segs generalizing i with
  | nil => rfl
  | cons a l ih => simp [srtBlocks, srtBlock, fillDefaults, ih]

/-- C10: both exports behave on a segment with missing keys exactly as
on the segment with the defaults substituted — `""` for `text` in the
plain-text export, `0` for `start`/`end` and `""` for `text` in the SRT
export — so no absent field can make either export fail; evaluated on
the all-missing segment. -/
theorem export_total_on_missing_fields :
    (∀ segs, export_txt segs = export_txt (segs.map fillDefaults)
        ∧ export_srt segs = export_srt (segs.map fillDefaults))
      ∧ export_srt [⟨none, none, none⟩] = "1\n00:00:00,000 --> 00:00:00,000\n\n\n"
      ∧ export_txt [⟨none, none, none⟩] = "" := by
  have htext : ∀ s : Segment, (fillDefaults s).text.getD "" = s.text.getD "" := by
    intro s
    cases h : s.text <;> simp [fillDefaults, h]
  refine ⟨fun segs => ⟨?_, ?_⟩, ?_, ?_⟩
  · simp [export_txt, List.map_map, Function.comp_def, htext]
  · rw [export_srt, export_srt, srtBlocks_map_fillDefaults]
  · simp only [export_srt, srtBlocks, srtBlock, Option.getD_none, format_time_zero, pyStrip]
    decide
  · simp only [export_txt, pyStrip]
    decide

/-- C2: a start request with a file selected, diarization enabled and an
empty token field is rejected before the worker exists: no
`TranscriptionWorker` is constructed or started, the blocking
precondition dialog is shown, and — since only a started worker can emit
— no progress event is ever emitted for the request. -/
theorem reject_diarize_without_token (u : UI) (f : String)
    (hf : u.current_file = some f) (hd : u.diarize_checked = true)
    (ht : u.hf_token_text = "") :
    (start_transcription u).workerStarted = none
      ∧ (start_transcription u).warningShown = true
      ∧ ∀ o c, startEvents u o c = [] := by
  simp [start_transcription, startEvents, hf, hd, ht, String.isEmpty]

theorem reject_diarize_without_token_witness :
    (start_transcription uNoToken).workerStarted = none
      ∧ (start_transcription uNoToken).warningShown = true
      ∧ ∀ o c, startEvents uNoToken o c = [] :=
  reject_diarize_without_token uNoToken "a.wav" rfl rfl rfl

theorem reach_invariant {u : UI} (h : Reach u) :
    u.activeWorkers ≤ 1 ∧ (u.activeWorkers = 1 → u.transcribeVisible = false) := by
  induction h with
  | init => simp [initUI]
  | @step u h e ih =>
    obtain ⟨hle, hvis⟩ := ih
    cases e with
    | selectFile f => simpa [stepFn] using ⟨hle, hvis⟩
    | clickTranscribe =>
      simp only [stepFn]
      split
      · next hcond =>
        simp only [Bool.and_eq_true] at hcond
        have h0 : u.activeWorkers = 0 := by
          rcases Nat.lt_or_ge u.activeWorkers 1 with h1 | h1
          · omega
          · have h2 : u.activeWorkers = 1 := le_antisymm hle h1
            rw [hvis h2] at hcond
            simp at hcond
        cases hstart : (start_transcription u).workerStarted with
        | none =>
          simp only [hstart]
          exact ⟨hle, hvis⟩
        | some w => simp [hstart, h0]
      · exact ⟨hle, hvis⟩
    | clickCancel =>
      simp only [stepFn]
      split
      · constructor <;> simp
      · exact ⟨hle, hvis⟩
    | workerFinished =>
      simp only [stepFn]
      split
      · exact ⟨hle, hvis⟩
      · constructor <;> simp <;> omega
    | workerError =>
      simp only [stepFn]
      split
      · exact ⟨hle, hvis⟩
      · constructor <;> simp <;> omega
    | setToken t => simpa [stepFn] using ⟨hle, hvis⟩
    | toggleDiarize b => simpa [stepFn] using ⟨hle, hvis⟩
    | toggleAlign b => simpa [stepFn] using ⟨hle, hvis⟩

/-- C4: in every controller state reachable from a fresh window, at most
one worker is active; and while one is active, a click on the transcribe
control is an identity step (the button is hidden, so Qt delivers
nothing and no second worker is started). -/
theorem single_flight {u : UI} (h : Reach u) :
    u.activeWorkers ≤ 1
      ∧ (u.activeWorkers = 1 → stepFn u Ev.clickTranscribe = u) := by
  obtain ⟨hle, hvis⟩ := reach_invariant h
  refine ⟨hle, fun h1 => ?_⟩
  simp [stepFn, hvis h1]

theorem single_flight_witness :
    (stepFn (stepFn initUI (Ev.selectFile "a.wav")) Ev.clickTranscribe).activeWorkers ≤ 1
      ∧ ((stepFn (stepFn initUI (Ev.selectFile "a.wav")) Ev.clickTranscribe).activeWorkers = 1 →
          stepFn (stepFn (stepFn initUI (Ev.selectFile "a.wav")) Ev.clickTranscribe)
              Ev.clickTranscribe
            = stepFn (stepFn initUI (Ev.selectFile "a.wav")) Ev.clickTranscribe) :=
  single_flight (Reach.step (Reach.step Reach.init (Ev.selectFile "a.wav")) Ev.clickTranscribe)

/-- C3 counterexample: on a full successful run (alignment and
diarization on, no cancellation), the `CleaningUp` state — a state after
`Idle` — is entered although no cancellation-flag check tagged for it
occurs anywhere in the trace: the claim "before entering every state
after Idle, the flag is checked" is false of the code. -/
theorem cleaningUp_entered_without_check :
    (run sFull oOk cNone).marks.contains (Mark.enter Stage.cleaningUp) = true
      ∧ checkedBefore Stage.cleaningUp (run sFull oOk cNone).marks false = false := by
  constructor <;> rfl

/-- C1: the explicit main-model release (`del model` + `gc.collect()` +
accelerator-cache flush) runs exactly once on the success path, but runs
zero times when cancellation is observed after the model was loaded and
zero times when a pipeline stage raises after the model was loaded — the
worker returns or jumps to the handler without any cleanup, contradicting
the claimed release on every exit path that reached model loading. -/
theorem model_released_only_on_success :
    ((run sPlain oOk cNone).modelLoaded = true
        ∧ (run sPlain oOk cNone).modelReleased = 1
        ∧ (run sPlain oOk cNone).accelReleased = 1)
      ∧ ((run sPlain oOk cAfterLoad).marks.contains (Mark.check true Stage.loadingAudio) = true
        ∧ (run sPlain oOk cAfterLoad).modelLoaded = true
        ∧ (run sPlain oOk cAfterLoad).modelReleased = 0
        ∧ (run sPlain oOk cAfterLoad).accelReleased = 0)
      ∧ ((run sPlain oTrErr cNone).marks.contains (Mark.errorEv "CUDA out of memory") = true
        ∧ (run sPlain oTrErr cNone).modelLoaded = true
        ∧ (run sPlain oTrErr cNone).modelReleased = 0
        ∧ (run sPlain oTrErr cNone).accelReleased = 0) :=
  ⟨⟨rfl, rfl, rfl⟩, ⟨rfl, rfl, rfl, rfl⟩, ⟨rfl, rfl, rfl, rfl⟩⟩

/-- C9: on the success path (no cancellation observed, every reached
pipeline call succeeds, a detected language present), the sequence of
emitted progress percentages is exactly the checkpoint list determined
by the alignment/diarization flags — one emission per checkpoint — and
that list is monotonically non-decreasing. -/
theorem success_path_progress (model lang : String) (segs : List Segment)
    (n : Nat) (ra rf : TResult) (cu al di : Bool) (tok : Option String) :
    percents (run { model := model, align := al, diarize := di, hf_token := tok }
        { load_model := .ok (), load_audio := .ok n,
          transcribe := .ok { language := some lang, segments := segs },
          load_align_model := .ok (), alignCall := .ok ra,
          diarize_ctor := .ok (), diarize_call := .ok (),
          assign_word_speakers := .ok rf, cuda_available := cu }
        cNone).marks
      = checkpoints al di (tokenTruthy tok)
    ∧ List.Chain' (· ≤ ·) (checkpoints al di (tokenTruthy tok)) := by
  constructor
  · cases al <;> cases di <;> cases htok : tokenTruthy tok <;>
      simp [run, runBody, afterTranscribe, afterAlign, afterDiarize, exitLoaded,
        cNone, percents, checkpoints, htok]
  · cases al <;> cases di <;> cases htok : tokenTruthy tok <;> simp [checkpoints]
